import Mathlib

/-!
Shallow embedding of `src/demo_runner.py` (the whole repository).

The script is a 16-line bootstrapper:

  line 11: sys.path.insert(0, str(Path(__file__).parent / "src"))
  line 14: if __name__ == "__main__":
  line 15:     from ui.dashboard import main
  line 16:     main()

The embedding models the process environment (the `__file__` resolution,
the `__name__` binding, the filesystem, and the behaviour of the external
`ui.dashboard.main` callable) as an explicit `World`, and the run of the
script as a pure function from the prior module search path to a
`RunResult` holding the final search path, the untouched remainder of the
process state, an event trace, and the outcome (normal return or a
propagated exception).
-/

namespace DemoRunner

/-- Python-level exceptions visible at this layer.
`pathResolutionError` stands for the host-environment error raised at
line 11 when the location of the entry file cannot be determined (in
CPython, a `NameError` on the undefined `__file__`); the spec names this
failure kind `PathResolutionError`.  `moduleNotFoundError m` is the
`ModuleNotFoundError` naming the logical module path `m`.  `userExc t`
is an arbitrary exception raised inside `main()`, tagged so distinct
exceptions are distinguishable. -/
inductive PyExc where
  | pathResolutionError : PyExc
  | moduleNotFoundError (modname : String) : PyExc
  | userExc (tag : Nat) : PyExc
deriving DecidableEq, Repr

/-- Observable events of one run, in program order. -/
inductive Event where
  | insertPath (pos : Nat) (dir : String) : Event
  | importAttempt (modname : String) : Event
  | callMain : Event
deriving DecidableEq, Repr

/-- Whether an event is a search-path insertion. -/
def Event.isInsert : Event → Bool
  | Event.insertPath _ _ => true
  | _ => false

/-- Whether an event is an import attempt. -/
def Event.isImport : Event → Bool
  | Event.importAttempt _ => true
  | _ => false

/-- Whether an event is a call of `main()`. -/
def Event.isCall : Event → Bool
  | Event.callMain => true
  | _ => false

/-- The process environment the script runs in.
`σ` is the rest of the process state (everything other than the module
search path); `α` is the return type of `ui.dashboard.main`.
`file` is the resolved location of the entry file (`none` when the host
cannot determine it).  `name` is the `__name__` binding.  `fs` lists the
(directory, module path) pairs present on disk: `(d, m) ∈ fs` means
directory `d` contains the module `m`.  `mainResult` is what
`ui.dashboard.main()` does when called: return a value or raise. -/
structure World (σ : Type) (α : Type) where
  file : Option String
  name : String
  fs : List (String × String)
  mainResult : Except PyExc α
  procState : σ

/-- The observable result of one run of the script. -/
structure RunResult (σ : Type) where
  sysPath : List String
  procState : σ
  trace : List Event
  outcome : Except PyExc Unit
deriving Repr

/-- `Path(p).parent` rendered back to a string, for a file path that
contains a directory separator: the characters strictly before the last
slash. -/
def parentPath (p : String) : String :=
  String.mk (((p.toList.reverse.dropWhile (fun c => c ≠ '/')).drop 1).reverse)

/-- `str(Path(d) / c)` for a directory string `d` and a single component
`c`. -/
def joinPath (d c : String) : String := d ++ "/" ++ c

/-- `str(Path(file).parent / "src")`: the sibling `src` directory derived
from the entry file location (line 11). -/
def srcDirOf (file : String) : String := joinPath (parentPath file) "src"

/-- The module path `ui.dashboard` resolves to under a search root. -/
def uiDashboardPath : String := "ui/dashboard"

/-- The logical (dotted) name of the imported module. -/
def uiDashboardName : String := "ui.dashboard"

/-- Python import resolution for a module path: the first directory on
the search path that contains it, `none` when no directory does. -/
def findModule (sysPath : List String) (fs : List (String × String))
    (modpath : String) : Option String :=
  sysPath.find? (fun d => decide ((d, modpath) ∈ fs))

/-- One run of `demo_runner.py` in world `w`, starting from module search
path `sysPath0`.  Mirrors the script line by line:
line 11 resolves `__file__` (raising when the host cannot determine it)
and prepends the derived `src` directory via `sys.path.insert(0, ·)`;
line 14 tests `__name__ == "__main__"`; line 15 attempts the import of
`ui.dashboard`, raising `ModuleNotFoundError` when no search-path entry
contains it; line 16 calls `main()`, whose result or exception is the
final outcome.  No statement of the script touches any process state
other than `sys.path`, so `procState` passes through unchanged. -/
def demoRunner (w : World σ α) (sysPath0 : List String) : RunResult σ :=
  match w.file with
  | none =>
      { sysPath := sysPath0, procState := w.procState, trace := [],
        outcome := Except.error PyExc.pathResolutionError }
  | some f =>
      if w.name = "__main__" then
        match findModule (srcDirOf f :: sysPath0) w.fs uiDashboardPath with
        | none =>
            { sysPath := srcDirOf f :: sysPath0, procState := w.procState,
              trace := [Event.insertPath 0 (srcDirOf f),
                        Event.importAttempt uiDashboardName],
              outcome := Except.error (PyExc.moduleNotFoundError uiDashboardName) }
        | some _ =>
            match w.mainResult with
            | Except.ok _ =>
                { sysPath := srcDirOf f :: sysPath0, procState := w.procState,
                  trace := [Event.insertPath 0 (srcDirOf f),
                            Event.importAttempt uiDashboardName,
                            Event.callMain],
                  outcome := Except.ok () }
            | Except.error e =>
                { sysPath := srcDirOf f :: sysPath0, procState := w.procState,
                  trace := [Event.insertPath 0 (srcDirOf f),
                            Event.importAttempt uiDashboardName,
                            Event.callMain],
                  outcome := Except.error e }
      else
        { sysPath := srcDirOf f :: sysPath0, procState := w.procState,
          trace := [Event.insertPath 0 (srcDirOf f)],
          outcome := Except.ok () }

/-- A concrete world matching the positive scenario of the spec: entry
file `/app/demo_runner.py`, `/app/src/ui/dashboard` on disk, `main`
returning the string `ok`. -/
def wOK : World Nat String :=
  { file := some "/app/demo_runner.py"
    name := "__main__"
    fs := [("/app/src", "ui/dashboard")]
    mainResult := Except.ok "ok"
    procState := 7 }

/-- Case analysis: when the entry-file location cannot be determined, line 11 raises before mutating anything. -/
theorem demoRunner_eq_noFile {σ α : Type} (w : World σ α) (sp0 : List String)
    (h : w.file = none) :
    demoRunner w sp0 =
      { sysPath := sp0, procState := w.procState, trace := [],
        outcome := Except.error PyExc.pathResolutionError } := by
  simp only [demoRunner, h]

/-- Case analysis: loaded as an imported module, only the insertion of line 11 runs. -/
theorem demoRunner_eq_notMain {σ α : Type} (w : World σ α) (sp0 : List String)
    (f : String) (h : w.file = some f) (hn : w.name ≠ "__main__") :
    demoRunner w sp0 =
      { sysPath := srcDirOf f :: sp0, procState := w.procState,
        trace := [Event.insertPath 0 (srcDirOf f)],
        outcome := Except.ok () } := by
  simp only [demoRunner, h, if_neg hn]

/-- Case analysis: run as `__main__` with no search-path entry containing `ui/dashboard`, the import of line 15 raises. -/
theorem demoRunner_eq_notFound {σ α : Type} (w : World σ α) (sp0 : List String)
    (f : String) (h : w.file = some f) (hn : w.name = "__main__")
    (hf : findModule (srcDirOf f :: sp0) w.fs uiDashboardPath = none) :
    demoRunner w sp0 =
      { sysPath := srcDirOf f :: sp0, procState := w.procState,
        trace := [Event.insertPath 0 (srcDirOf f),
                  Event.importAttempt uiDashboardName],
        outcome := Except.error (PyExc.moduleNotFoundError uiDashboardName) } := by
  simp only [demoRunner, h, if_pos hn, hf]

/-- Case analysis: run as `__main__`, module found, `main()` returns `v`. -/
theorem demoRunner_eq_mainOk {σ α : Type} (w : World σ α) (sp0 : List String)
    (f d : String) (v : α) (h : w.file = some f) (hn : w.name = "__main__")
    (hf : findModule (srcDirOf f :: sp0) w.fs uiDashboardPath = some d)
    (hm : w.mainResult = Except.ok v) :
    demoRunner w sp0 =
      { sysPath := srcDirOf f :: sp0, procState := w.procState,
        trace := [Event.insertPath 0 (srcDirOf f),
                  Event.importAttempt uiDashboardName,
                  Event.callMain],
        outcome := Except.ok () } := by
  simp only [demoRunner, h, if_pos hn, hf, hm]

/-- Case analysis: run as `__main__`, module found, `main()` raises `E`. -/
theorem demoRunner_eq_mainErr {σ α : Type} (w : World σ α) (sp0 : List String)
    (f d : String) (E : PyExc) (h : w.file = some f) (hn : w.name = "__main__")
    (hf : findModule (srcDirOf f :: sp0) w.fs uiDashboardPath = some d)
    (hm : w.mainResult = Except.error E) :
    demoRunner w sp0 =
      { sysPath := srcDirOf f :: sp0, procState := w.procState,
        trace := [Event.insertPath 0 (srcDirOf f),
                  Event.importAttempt uiDashboardName,
                  Event.callMain],
        outcome := Except.error E } := by
  simp only [demoRunner, h, if_pos hn, hf, hm]

/-- C1: after the bootstrap runs with a resolvable entry-file location `f`,
the string form of the derived sibling directory (the parent of `f` joined
with `src`) is present at index 0 of the module search path, whatever the
prior contents of the search path, the `__name__` binding, the filesystem,
and the behaviour of `main`. -/
theorem C1_src_at_index_zero {σ α : Type} (w : World σ α) (sp0 : List String)
    (f : String) (h : w.file = some f) :
    (demoRunner w sp0).sysPath.get? 0 = some (srcDirOf f) := by
  by_cases hn : w.name = "__main__"
  · cases hf : findModule (srcDirOf f :: sp0) w.fs uiDashboardPath with
    | none =>
      rw [demoRunner_eq_notFound w sp0 f h hn hf]
      rfl
    | some d =>
      cases hm : w.mainResult with
      | ok v =>
        rw [demoRunner_eq_mainOk w sp0 f d v h hn hf hm]
        rfl
      | error E =>
        rw [demoRunner_eq_mainErr w sp0 f d E h hn hf hm]
        rfl
  · rw [demoRunner_eq_notMain w sp0 f h hn]
    rfl

/-- Witness for C1 at the concrete scenario of the spec. -/
theorem C1_witness :
    (demoRunner wOK ["/usr/lib"]).sysPath.get? 0 = some "/app/src" := by
  have h := C1_src_at_index_zero wOK ["/usr/lib"] "/app/demo_runner.py" rfl
  have e : srcDirOf "/app/demo_runner.py" = "/app/src" := by decide
  rw [e] at h
  exact h

/-- C2: in every execution with a resolvable entry-file location, exactly
one search-path insertion event occurs, and every import-attempt event in
the trace is strictly preceded by the insertion of the derived `src`
directory at position 0. -/
theorem C2_insert_once_before_import {σ α : Type} (w : World σ α) (sp0 : List String)
    (f : String) (h : w.file = some f) :
    (demoRunner w sp0).trace.countP (fun e => e.isInsert) = 1 ∧
    (∀ i m, (demoRunner w sp0).trace.get? i = some (Event.importAttempt m) →
      ∃ j, j < i ∧
        (demoRunner w sp0).trace.get? j = some (Event.insertPath 0 (srcDirOf f))) := by
  by_cases hn : w.name = "__main__"
  · cases hf : findModule (srcDirOf f :: sp0) w.fs uiDashboardPath with
    | none =>
      rw [demoRunner_eq_notFound w sp0 f h hn hf]
      refine ⟨by simp [List.countP, List.countP.go, Event.isInsert], ?_⟩
      intro i m hi
      rcases i with _ | _ | i
      · simp [Event.isInsert] at hi
      · exact ⟨0, Nat.zero_lt_one, rfl⟩
      · simp at hi
    | some d =>
      cases hm : w.mainResult with
      | ok v =>
        rw [demoRunner_eq_mainOk w sp0 f d v h hn hf hm]
        refine ⟨by simp [List.countP, List.countP.go, Event.isInsert], ?_⟩
        intro i m hi
        rcases i with _ | _ | _ | i
        · simp at hi
        · exact ⟨0, Nat.zero_lt_one, rfl⟩
        · simp at hi
        · simp at hi
      | error E =>
        rw [demoRunner_eq_mainErr w sp0 f d E h hn hf hm]
        refine ⟨by simp [List.countP, List.countP.go, Event.isInsert], ?_⟩
        intro i m hi
        rcases i with _ | _ | _ | i
        · simp at hi
        · exact ⟨0, Nat.zero_lt_one, rfl⟩
        · simp at hi
        · simp at hi
  · rw [demoRunner_eq_notMain w sp0 f h hn]
    refine ⟨by simp [List.countP, List.countP.go, Event.isInsert], ?_⟩
    intro i m hi
    rcases i with _ | i
    · simp at hi
    · simp at hi

/-- Witness for C2 at the concrete scenario of the spec. -/
theorem C2_witness :
    (demoRunner wOK ["/usr/lib"]).trace.countP (fun e => e.isInsert) = 1 := by
  have h := C2_insert_once_before_import wOK ["/usr/lib"] "/app/demo_runner.py" rfl
  exact h.1

def wSibling : World Nat String :=
  { file := some "/app/demo_runner.py"
    name := "__main__"
    fs := [("/other", "ui/dashboard")]
    mainResult := Except.ok "ok"
    procState := 0 }

def wMissing : World Nat String :=
  { file := some "/app/demo_runner.py"
    name := "__main__"
    fs := []
    mainResult := Except.ok "ok"
    procState := 0 }

def wNoFile : World Nat String :=
  { file := none
    name := "__main__"
    fs := [("/app/src", "ui/dashboard")]
    mainResult := Except.ok "ok"
    procState := 0 }

def wRaises : World Nat String :=
  { file := some "/app/demo_runner.py"
    name := "__main__"
    fs := [("/app/src", "ui/dashboard")]
    mainResult := Except.error (PyExc.userExc 3)
    procState := 0 }

/-- C3 as stated is false on the code: with the entry file at
`/app/demo_runner.py`, no `ui/dashboard` module under the resolved
`/app/src` location, but a same-named module in the directory `/other`
that is already on the search path, the import succeeds from `/other`,
the run returns normally, and `main()` is called — no module-not-found
error is raised.  Python searches every entry of the search path, not
only the freshly inserted one. -/
theorem C3_counterexample :
    wSibling.file = some "/app/demo_runner.py" ∧
    srcDirOf "/app/demo_runner.py" = "/app/src" ∧
    ("/app/src", uiDashboardPath) ∉ wSibling.fs ∧
    (demoRunner wSibling ["/other"]).outcome = Except.ok () ∧
    (demoRunner wSibling ["/other"]).trace.countP (fun e => e.isCall) = 1 :=
  ⟨rfl, by decide, by decide, rfl, by decide⟩

/-- When no directory of the search path contains the module, import
resolution fails. -/
theorem findModule_eq_none_of_absent (sysPath : List String)
    (fs : List (String × String)) (m : String)
    (h : ∀ d ∈ sysPath, (d, m) ∉ fs) : findModule sysPath fs m = none := by
  unfold findModule
  rw [List.find?_eq_none]
  intro d hd
  simp [h d hd]

/-- C3 amended: if no module `ui/dashboard` exists at any location on the
post-insertion module search path (in particular not under the resolved
`src` location), invoking the bootstrapper as the process entry point
fails with a module-not-found error referencing the logical module path
`ui.dashboard`, and no call to `main()` occurs. -/
theorem C3_missing_everywhere {σ α : Type} (w : World σ α) (sp0 : List String)
    (f : String) (h : w.file = some f) (hn : w.name = "__main__")
    (habs : ∀ d ∈ srcDirOf f :: sp0, (d, uiDashboardPath) ∉ w.fs) :
    (demoRunner w sp0).outcome
        = Except.error (PyExc.moduleNotFoundError uiDashboardName) ∧
    (demoRunner w sp0).trace.countP (fun e => e.isCall) = 0 := by
  have hf : findModule (srcDirOf f :: sp0) w.fs uiDashboardPath = none :=
    findModule_eq_none_of_absent _ _ _ habs
  rw [demoRunner_eq_notFound w sp0 f h hn hf]
  exact ⟨rfl, by simp [List.countP, List.countP.go, Event.isCall]⟩

/-- Witness for the amended C3: empty filesystem, empty prior search
path. -/
theorem C3_missing_everywhere_witness :
    (demoRunner wMissing []).outcome
        = Except.error (PyExc.moduleNotFoundError "ui.dashboard") ∧
    (demoRunner wMissing []).trace.countP (fun e => e.isCall) = 0 := by
  have h := C3_missing_everywhere wMissing [] "/app/demo_runner.py" rfl rfl
    (by decide)
  exact h

/-- C4: when `main()` raises an error `E`, the bootstrapper run ends with
exactly that error `E` — identity preserved, no wrapping, translation or
suppression — for every error value `E`. -/
theorem C4_error_propagates_identically {σ α : Type} (w : World σ α)
    (sp0 : List String) (f d : String) (E : PyExc) (h : w.file = some f)
    (hn : w.name = "__main__")
    (hf : findModule (srcDirOf f :: sp0) w.fs uiDashboardPath = some d)
    (hm : w.mainResult = Except.error E) :
    (demoRunner w sp0).outcome = Except.error E := by
  rw [demoRunner_eq_mainErr w sp0 f d E h hn hf hm]

/-- Witness for C4: `main` raising the tagged user exception 3 surfaces
that same exception. -/
theorem C4_witness :
    (demoRunner wRaises []).outcome = Except.error (PyExc.userExc 3) := by
  have h := C4_error_propagates_identically wRaises [] "/app/demo_runner.py"
    "/app/src" (PyExc.userExc 3) rfl rfl (by decide) rfl
  exact h

/-- C5: when the entry-file location cannot be determined by the host,
the run fails with the path-resolution error kind, nothing is recovered
locally (the error is the final outcome), no event occurs — in particular
`main()` is never called — and the search path is untouched. -/
theorem C5_unresolvable_location {σ α : Type} (w : World σ α)
    (sp0 : List String) (h : w.file = none) :
    (demoRunner w sp0).outcome = Except.error PyExc.pathResolutionError ∧
    (demoRunner w sp0).trace = [] ∧
    (demoRunner w sp0).sysPath = sp0 := by
  rw [demoRunner_eq_noFile w sp0 h]
  exact ⟨rfl, rfl, rfl⟩

/-- Witness for C5 at a concrete world with an undeterminable entry-file
location. -/
theorem C5_witness :
    (demoRunner wNoFile ["/usr/lib"]).outcome
        = Except.error PyExc.pathResolutionError ∧
    (demoRunner wNoFile ["/usr/lib"]).trace = [] ∧
    (demoRunner wNoFile ["/usr/lib"]).sysPath = ["/usr/lib"] :=
  C5_unresolvable_location wNoFile ["/usr/lib"] rfl

/-- C6: whenever the earlier steps succeed (location resolved, run as
`__main__`, module found), the run performs exactly the linear sequence
insert, import, invoke — the same fixed decision-free trace regardless of
the remaining state of the world, in particular regardless of what
`main()` does. -/
theorem C6_linear_decision_free {σ α : Type} (w : World σ α)
    (sp0 : List String) (f d : String) (h : w.file = some f)
    (hn : w.name = "__main__")
    (hf : findModule (srcDirOf f :: sp0) w.fs uiDashboardPath = some d) :
    (demoRunner w sp0).trace =
      [Event.insertPath 0 (srcDirOf f),
       Event.importAttempt uiDashboardName,
       Event.callMain] := by
  cases hm : w.mainResult with
  | ok v => rw [demoRunner_eq_mainOk w sp0 f d v h hn hf hm]
  | error E => rw [demoRunner_eq_mainErr w sp0 f d E h hn hf hm]

/-- Witness for C6 at the concrete scenario of the spec. -/
theorem C6_witness :
    (demoRunner wOK ["/usr/lib"]).trace =
      [Event.insertPath 0 "/app/src",
       Event.importAttempt "ui.dashboard",
       Event.callMain] := by
  have h := C6_linear_decision_free wOK ["/usr/lib"] "/app/demo_runner.py"
    "/app/src" rfl rfl (by decide)
  have e : srcDirOf "/app/demo_runner.py" = "/app/src" := by decide
  rw [e] at h
  exact h

def wImported : World Nat String :=
  { file := some "/app/demo_runner.py"
    name := "demo_runner"
    fs := [("/app/src", "ui/dashboard")]
    mainResult := Except.ok "ok"
    procState := 0 }

/-- C7: with a resolvable entry-file location, the bootstrap adds exactly
one entry to the module search path whatever its prior contents: the
length grows by one, and every prior entry is still present at its
original relative position shifted one place toward the back. -/
theorem C7_single_insertion_frame {σ α : Type} (w : World σ α)
    (sp0 : List String) (f : String) (h : w.file = some f) :
    (demoRunner w sp0).sysPath.length = sp0.length + 1 ∧
    (∀ i : Nat, (demoRunner w sp0).sysPath.get? (i + 1) = sp0.get? i) := by
  have hs : (demoRunner w sp0).sysPath = srcDirOf f :: sp0 := by
    by_cases hn : w.name = "__main__"
    · cases hf : findModule (srcDirOf f :: sp0) w.fs uiDashboardPath with
      | none =>
        rw [demoRunner_eq_notFound w sp0 f h hn hf]
      | some d =>
        cases hm : w.mainResult with
        | ok v => rw [demoRunner_eq_mainOk w sp0 f d v h hn hf hm]
        | error E => rw [demoRunner_eq_mainErr w sp0 f d E h hn hf hm]
    · rw [demoRunner_eq_notMain w sp0 f h hn]
  rw [hs]
  exact ⟨rfl, fun i => rfl⟩

/-- Witness for C7: a two-entry prior search path keeps both entries, in
order, shifted back by one. -/
theorem C7_witness :
    (demoRunner wOK ["/usr/lib", "/opt"]).sysPath.length = 3 ∧
    (demoRunner wOK ["/usr/lib", "/opt"]).sysPath.get? 1 = some "/usr/lib" ∧
    (demoRunner wOK ["/usr/lib", "/opt"]).sysPath.get? 2 = some "/opt" := by
  have h := C7_single_insertion_frame wOK ["/usr/lib", "/opt"]
    "/app/demo_runner.py" rfl
  exact ⟨h.1, h.2 0, h.2 1⟩

/-- C8: under the preconditions (location resolved, run as `__main__`,
module found), `main()` is called exactly once; when it returns a value
the bootstrapper returns normally carrying no captured value — the
outcome is the bare unit, the same whatever value `main` returned — and
when it raises the bootstrapper does not return normally.  `main` takes
no arguments by construction: its behaviour in the world model is a plain
result, not a function of any argument. -/
theorem C8_delegation {σ α : Type} (w : World σ α) (sp0 : List String)
    (f d : String) (h : w.file = some f) (hn : w.name = "__main__")
    (hf : findModule (srcDirOf f :: sp0) w.fs uiDashboardPath = some d) :
    (demoRunner w sp0).trace.countP (fun e => e.isCall) = 1 ∧
    (∀ v : α, w.mainResult = Except.ok v →
      (demoRunner w sp0).outcome = Except.ok ()) ∧
    (∀ E : PyExc, w.mainResult = Except.error E →
      (demoRunner w sp0).outcome = Except.error E) := by
  refine ⟨?_, ?_, ?_⟩
  · cases hm : w.mainResult with
    | ok v =>
      rw [demoRunner_eq_mainOk w sp0 f d v h hn hf hm]
      simp [List.countP, List.countP.go, Event.isCall]
    | error E =>
      rw [demoRunner_eq_mainErr w sp0 f d E h hn hf hm]
      simp [List.countP, List.countP.go, Event.isCall]
  · intro v hm
    rw [demoRunner_eq_mainOk w sp0 f d v h hn hf hm]
  · intro E hm
    rw [demoRunner_eq_mainErr w sp0 f d E h hn hf hm]

/-- Witness for C8 at the concrete scenario of the spec, where `main`
returns the string `ok` and the bootstrapper returns the bare unit. -/
theorem C8_witness :
    (demoRunner wOK ["/usr/lib"]).trace.countP (fun e => e.isCall) = 1 ∧
    (demoRunner wOK ["/usr/lib"]).outcome = Except.ok () := by
  have h := C8_delegation wOK ["/usr/lib"] "/app/demo_runner.py" "/app/src"
    rfl rfl (by decide)
  exact ⟨h.1, h.2.1 "ok" rfl⟩

/-- C9: when `main` is a no-op (returns a value without raising), the run
returns normally, the rest of the process state is untouched, and the
only search-path change is the single prepend of the derived `src`
directory. -/
theorem C9_noop_frame {σ α : Type} (w : World σ α) (sp0 : List String)
    (f d : String) (v : α) (h : w.file = some f) (hn : w.name = "__main__")
    (hf : findModule (srcDirOf f :: sp0) w.fs uiDashboardPath = some d)
    (hm : w.mainResult = Except.ok v) :
    (demoRunner w sp0).outcome = Except.ok () ∧
    (demoRunner w sp0).procState = w.procState ∧
    (demoRunner w sp0).sysPath = srcDirOf f :: sp0 := by
  rw [demoRunner_eq_mainOk w sp0 f d v h hn hf hm]
  exact ⟨rfl, rfl, rfl⟩

/-- Witness for C9 at the concrete scenario of the spec. -/
theorem C9_witness :
    (demoRunner wOK ["/usr/lib"]).outcome = Except.ok () ∧
    (demoRunner wOK ["/usr/lib"]).procState = 7 ∧
    (demoRunner wOK ["/usr/lib"]).sysPath
        = [srcDirOf "/app/demo_runner.py", "/usr/lib"] :=
  C9_noop_frame wOK ["/usr/lib"] "/app/demo_runner.py" "/app/src" "ok"
    rfl rfl (by decide) rfl

/-- C10: loaded as an imported module (`__name__` different from
`__main__`), the search-path mutation still occurs, but the trace holds
no import-attempt and no call event — `ui.dashboard` is never imported
and `main()` is never called — and the module load completes
normally. -/
theorem C10_import_only_under_main {σ α : Type} (w : World σ α)
    (sp0 : List String) (f : String) (h : w.file = some f)
    (hn : w.name ≠ "__main__") :
    (demoRunner w sp0).sysPath = srcDirOf f :: sp0 ∧
    (demoRunner w sp0).trace = [Event.insertPath 0 (srcDirOf f)] ∧
    (demoRunner w sp0).outcome = Except.ok () := by
  rw [demoRunner_eq_notMain w sp0 f h hn]
  exact ⟨rfl, rfl, rfl⟩

/-- Witness for C10 at a world whose `__name__` is `demo_runner`. -/
theorem C10_witness :
    (demoRunner wImported ["/usr/lib"]).sysPath
        = [srcDirOf "/app/demo_runner.py", "/usr/lib"] ∧
    (demoRunner wImported ["/usr/lib"]).trace
        = [Event.insertPath 0 (srcDirOf "/app/demo_runner.py")] ∧
    (demoRunner wImported ["/usr/lib"]).outcome = Except.ok () :=
  C10_import_only_under_main wImported ["/usr/lib"] "/app/demo_runner.py"
    rfl (by decide)

end DemoRunner
